import Mathlib

/-!
Verification of the skill-test assessment engine
(`backend/routes/skill_tests.py` and `backend/services/ai_service.py`).

The Python routes are embedded as pure Lean functions over an explicit
`Attempt` record: every database `UPDATE` becomes a record update, every
JSON response becomes a structure, and the external AI calls become
explicit parameters (the value the service returned, or `none` for an
error).  Scores are modelled over `ℚ`, matching the exact arithmetic the
claims state.
-/

namespace Assessment

/-! ## Python-value helpers

JSON values that can appear as an MCQ answer are either strings or
numbers; dictionary keys are strings (JSON) or integers (when built in
process).  `truthyA` is Python truthiness on such a value. -/

inductive AVal where
  | s (v : String)
  | n (v : Int)
deriving DecidableEq, Repr

def truthyA : AVal → Bool
  | .s v => v ≠ ""
  | .n v => v ≠ 0

inductive JKey where
  | str (s : String)
  | int (i : Int)
deriving DecidableEq, Repr

abbrev Answers := List (JKey × AVal)

def lookupAns : Answers → JKey → Option AVal
  | [], _ => none
  | (k, v) :: rest, key => if k = key then some v else lookupAns rest key

/-- Models `answers.get(str(q.get("id"))) or answers.get(q.get("id"))`
from `mcq_submit`: the string-key lookup wins only when its value is
truthy, otherwise Python's `or` falls through to the raw-key lookup. -/
def get_answer (answers : Answers) (qid : Int) : Option AVal :=
  match lookupAns answers (.str (toString qid)) with
  | some v => if truthyA v then some v else lookupAns answers (.int qid)
  | none => lookupAns answers (.int qid)

/-- Embeds `_mcq_answer_index`: a one-letter alphabetic string maps to
`ord(upper) - 65`, a number maps to itself, anything else to `-1`. -/
def mcq_answer_index : Option AVal → Int
  | some (.s v) =>
      match v.toList with
      | [c] => if c.isAlpha then (c.toUpper.toNat : Int) - 65 else -1
      | _ => -1
  | some (.n v) => v
  | none => -1

/-- Models Python's `x or d` on an integer column value: `0` (and SQL
NULL, which we identify with `0`) falls back to the default. -/
def pyOrInt (v d : Int) : Int := if v = 0 then d else v

/-- Truthiness of the nullable `current_stage` column. -/
def stage_truthy : Option String → Bool
  | none => false
  | some s => s ≠ ""

/-- Python's `round` (banker's rounding, half to even) on an exact
rational. -/
def pyRound (q : ℚ) : Int :=
  let f : Int := ⌊q⌋
  if q - f < 1/2 then f
  else if q - f > 1/2 then f + 1
  else if f % 2 = 0 then f else f + 1

/-- Python dict assignment `d[k] = v` on an association list: replaces
the first binding of `k`, otherwise appends. -/
def updateAssoc {α : Type} : List (String × α) → String → α → List (String × α)
  | [], k, v => [(k, v)]
  | (k', v') :: rest, k, v =>
      if k' = k then (k, v) :: rest else (k', v') :: updateAssoc rest k v

def lookupStr {α : Type} : List (String × α) → String → Option α
  | [], _ => none
  | (k, v) :: rest, key => if k = key then some v else lookupStr rest key

/-! ## Data model

One record per `skill_test_attempts` row, with the columns the stage
routes join in from `skill_tests` (passing scores, counts) inlined, as
the SQL query in each route does. -/

structure MCQuestion where
  id : Int
  question : String := ""
  skill : String := "General"
  options : List String := []
  correct_answer : Option AVal := none
  explanation : String := ""
deriving DecidableEq, Repr

structure CodingProblem where
  id : Int
  title : String := ""
deriving DecidableEq, Repr

structure CodingSub where
  code : String := ""
  language : String := ""
  passed : Bool := true
deriving DecidableEq, Repr

structure SqlProblem where
  id : Int
  title : String := ""
deriving DecidableEq, Repr

structure SqlSub where
  query : String := ""
  passed : Bool := false
deriving DecidableEq, Repr

structure QA where
  question : String
  answer : String
  score : ℚ
deriving DecidableEq, Repr

structure Report where
  overall_rating : String := "Average"
  summary : String := ""
deriving DecidableEq, Repr

structure EvalResult where
  score : ℚ
  feedback : String := ""
deriving DecidableEq, Repr

structure Attempt where
  attempt_number : Nat := 1
  current_stage : Option String := some "mcq"
  overall_status : String := "in_progress"
  mcq_status : String := "pending"
  coding_status : String := "pending"
  sql_status : String := "pending"
  interview_status : String := "pending"
  mcq_questions : List MCQuestion := []
  mcq_answers : Answers := []
  mcq_score : ℚ := 0
  mcq_passing_score : Int := 60
  coding_problems : List CodingProblem := []
  coding_submissions : List (String × CodingSub) := []
  coding_score : ℚ := 0
  coding_passing_score : Int := 60
  sql_problems : List SqlProblem := []
  sql_submissions : List (String × SqlSub) := []
  sql_score : ℚ := 0
  sql_passing_score : Int := 60
  interview_qa : List QA := []
  interview_score : ℚ := 0
  interview_count : Int := 5
  interview_passing_score : Int := 5
  report : Option Report := none
deriving DecidableEq, Repr

structure SkillTest where
  attempt_limit : Int := 3
  mcq_passing_score : Int := 60
  coding_passing_score : Int := 60
  sql_passing_score : Int := 60
  interview_passing_score : Int := 5
  interview_count : Int := 5
deriving DecidableEq, Repr

/-! ## Stage 1: MCQ (`mcq_submit`) -/

/-- The scoring loop of `mcq_submit` (and `_calc_mcq_stats`): a question
counts when the index of the submitted answer equals the index of
`correct_answer` (default `-2` when absent). -/
def mcq_correct_count (questions : List MCQuestion) (answers : Answers) : Nat :=
  questions.countP (fun q =>
    mcq_answer_index (get_answer answers q.id)
      == mcq_answer_index (some (q.correct_answer.getD (.n (-2)))))

structure McqSubmitResp where
  score : ℚ
  passed : Bool
  correct : Int
  total : Nat
  nextStage : Option String
deriving DecidableEq, Repr

/-- Embeds `POST /mcq/submit`.  `rep` is the report value the (always
succeeding) `generate_final_report` call or its `except` fallback
produced; it is stored only on the failing branch, as in the source. -/
def mcq_submit (a : Attempt) (answers : Answers) (rep : Report) :
    Attempt × McqSubmitResp :=
  let questions := a.mcq_questions
  if a.mcq_status = "completed" ∨
      (stage_truthy a.current_stage = true ∧ a.current_stage ≠ some "mcq") then
    let cc := pyRound (a.mcq_score / 100 * (questions.length : ℚ))
    let p : Bool := decide (a.mcq_score ≥ (a.mcq_passing_score : ℚ))
    (a, { score := a.mcq_score, passed := p, correct := cc, total := questions.length,
          nextStage := if p then some "coding" else none })
  else
    let correct := mcq_correct_count questions answers
    let score : ℚ :=
      if questions.length = 0 then 0 else (correct : ℚ) / (questions.length : ℚ) * 100
    if score ≥ (pyOrInt a.mcq_passing_score 60 : ℚ) then
      ({ a with mcq_answers := answers, mcq_score := score, mcq_status := "completed",
                current_stage := some "coding", overall_status := "in_progress" },
       { score := score, passed := true, correct := correct, total := questions.length,
         nextStage := some "coding" })
    else
      ({ a with mcq_answers := answers, mcq_score := score, mcq_status := "failed",
                current_stage := some "mcq", overall_status := "failed",
                report := some rep },
       { score := score, passed := false, correct := correct, total := questions.length,
         nextStage := none })

/-! ## Stage 2: Coding (`coding_submit`, `coding_finish`) -/

structure TestResultItem where
  passed : Bool
  name : String
deriving DecidableEq, Repr

structure CodingSubmitResp where
  all_passed : Bool
  test_results : List TestResultItem
deriving DecidableEq, Repr

/-- Embeds `POST /coding/submit`: a falsy `problemId` is a 400 error
(`none`); otherwise the submission is recorded with `passed = True`
unconditionally and the response reports a passing run. -/
def coding_submit (a : Attempt) (problemId : Int) (code language : String) :
    Option (Attempt × CodingSubmitResp) :=
  if problemId = 0 then none
  else
    let sub : CodingSub := { code := code, language := language, passed := true }
    some ({ a with coding_submissions :=
              updateAssoc a.coding_submissions (toString problemId) sub },
          { all_passed := true,
            test_results := [{ passed := true, name := "Submission accepted" }] })

/-- The `(subs.get(str(p.id)) or {}).get("passed")` test of
`_calc_coding_stats`. -/
def sub_passed (subs : List (String × CodingSub)) (pid : String) : Bool :=
  match lookupStr subs pid with
  | some sub => sub.passed
  | none => false

/-- The `solved` count of `_calc_coding_stats`, including the
`if solved == 0 and subs` fallback to `len(subs)`. -/
def calc_coding_solved (a : Attempt) : Nat :=
  let solved := a.coding_problems.countP (fun p => sub_passed a.coding_submissions (toString p.id))
  if solved = 0 ∧ a.coding_submissions ≠ [] then a.coding_submissions.length else solved

structure StageFinishResp where
  score : ℚ
  passed : Bool
  solved : Nat
  total : Nat
  nextStage : Option String
deriving DecidableEq, Repr

/-- Embeds `POST /coding/finish/{id}`: the score is
`len(subs) / len(problems) * 100` (submission count, not per-problem
matching) and there is no guard on `current_stage` or `coding_status`. -/
def coding_finish (a : Attempt) (rep : Report) : Attempt × StageFinishResp :=
  let num := a.coding_problems.length
  let submitted := a.coding_submissions.length
  let score : ℚ := if num = 0 then 0 else (submitted : ℚ) / (num : ℚ) * 100
  if score ≥ (pyOrInt a.coding_passing_score 60 : ℚ) then
    ({ a with coding_score := score, coding_status := "completed",
              current_stage := some "sql" },
     { score := score, passed := true, solved := submitted, total := num,
       nextStage := some "sql" })
  else
    ({ a with coding_score := score, coding_status := "failed",
              current_stage := some "coding", overall_status := "failed",
              report := some rep },
     { score := score, passed := false, solved := submitted, total := num,
       nextStage := none })

/-! ## Stage 3: SQL (`sql_finish`) -/

/-- Embeds `POST /sql/finish/{id}`: same shape as `coding_finish`,
advancing to the interview stage on pass. -/
def sql_finish (a : Attempt) (rep : Report) : Attempt × StageFinishResp :=
  let num := a.sql_problems.length
  let submitted := a.sql_submissions.length
  let score : ℚ := if num = 0 then 0 else (submitted : ℚ) / (num : ℚ) * 100
  if score ≥ (pyOrInt a.sql_passing_score 60 : ℚ) then
    ({ a with sql_score := score, sql_status := "completed",
              current_stage := some "interview" },
     { score := score, passed := true, solved := submitted, total := num,
       nextStage := some "interview" })
  else
    ({ a with sql_score := score, sql_status := "failed",
              current_stage := some "sql", overall_status := "failed",
              report := some rep },
     { score := score, passed := false, solved := submitted, total := num,
       nextStage := none })

/-! ## Stage 4: Interview (`interview_answer`) -/

structure InterviewResp where
  finished : Bool
  evaluationScore : ℚ
  avgScore : Option ℚ
  passed : Option Bool
deriving DecidableEq, Repr

/-- Embeds `POST /interview/answer`.  `ev` is the result of
`evaluate_interview_answer` (which always returns a numeric score); the
turn is appended, and only when the appended list reaches
`interview_count or 5` turns is the average computed and the terminal
transition applied. -/
def interview_answer (a : Attempt) (q ans : String) (ev : EvalResult) (rep : Report) :
    Attempt × InterviewResp :=
  let qa := a.interview_qa ++ [({ question := q, answer := ans, score := ev.score } : QA)]
  let total := pyOrInt a.interview_count 5
  if (qa.length : Int) ≥ total then
    let avg : ℚ := if qa.length = 0 then 0 else (qa.map QA.score).sum / (qa.length : ℚ)
    if avg ≥ (pyOrInt a.interview_passing_score 5 : ℚ) then
      ({ a with interview_qa := qa, interview_score := avg,
                interview_status := "completed", current_stage := some "completed",
                overall_status := "completed", report := some rep },
       { finished := true, evaluationScore := ev.score, avgScore := some avg,
         passed := some true })
    else
      ({ a with interview_qa := qa, interview_score := avg,
                interview_status := "failed", current_stage := some "interview",
                overall_status := "failed", report := some rep },
       { finished := true, evaluationScore := ev.score, avgScore := some avg,
         passed := some false })
  else
    ({ a with interview_qa := qa },
     { finished := false, evaluationScore := ev.score, avgScore := none, passed := none })

/-! ## Starting an attempt (`start_attempt`) -/

/-- Modelled from the spec: the `skill_test_attempts` table schema (its
column defaults) is not in the repository; per spec sections 3 and 4.1 a
freshly inserted attempt row defaults to `current_stage = mcq`,
`overall_status = in_progress`, and all stage statuses `pending`.  The
attempt-limit check, the insert, and `attempt_number = priorCount + 1`
are from `start_attempt` in `skill_tests.py`. -/
def new_attempt (test : SkillTest) (n : Nat) : Attempt :=
  { attempt_number := n,
    current_stage := some "mcq",
    overall_status := "in_progress",
    mcq_passing_score := test.mcq_passing_score,
    coding_passing_score := test.coding_passing_score,
    sql_passing_score := test.sql_passing_score,
    interview_passing_score := test.interview_passing_score,
    interview_count := test.interview_count }

/-- Embeds `POST /{test_id}/start`: rejects with HTTP 400 when the
existing attempts for this (test, student) pair reach `attempt_limit`,
otherwise appends exactly one new row. -/
def start_attempt (test : SkillTest) (prior : List Attempt) :
    Except String (List Attempt) :=
  if (prior.length : Int) ≥ test.attempt_limit then
    .error "Attempt limit reached for this test"
  else
    .ok (prior ++ [new_attempt test (prior.length + 1)])

/-! ## SQL run (`sql_run`, `_sandbox_names`)

The table gate of `POST /sql/run`: the query must start with `SELECT`
(case-insensitively) and every identifier captured by the regex
`(?:from|join)\s+([a-zA-Z_][a-zA-Z0-9_]*)` (lower-cased) must be one of
the four sandbox table names for the attempt's test. -/

def BASE_TABLES : List String := ["employees", "departments", "projects", "orders"]

def sandbox_names (testId : Int) : List String :=
  BASE_TABLES.map (fun t => "st" ++ toString testId ++ "_" ++ t)

/-- Python `str.strip()` whitespace (the `\s` class of `re`). -/
def pyIsSpace (c : Char) : Bool :=
  c = ' ' ∨ c = '\t' ∨ c = '\n' ∨ c = '\r' ∨ c = '\x0b' ∨ c = '\x0c'

def pyStrip (s : String) : String :=
  String.mk (((s.toList.dropWhile pyIsSpace).reverse.dropWhile pyIsSpace).reverse)

/-- Python `str.upper()` (ASCII, as the queries at hand are ASCII). -/
def pyUpper (s : String) : String := String.mk (s.toList.map Char.toUpper)

def isIdentStart (c : Char) : Bool := c.isAlpha || c = '_'

def isIdentChar (c : Char) : Bool := c.isAlphanum || c = '_'

/-- Case-insensitive match of the `from|join` alternation (4 chars). -/
def kwMatch : List Char → Option (List Char)
  | a :: b :: c :: d :: rest =>
      let w := String.mk [a.toLower, b.toLower, c.toLower, d.toLower]
      if w = "from" ∨ w = "join" then some rest else none
  | _ => none

/-- The `\s+` part of the regex: at least one whitespace character. -/
def spaces1 : List Char → Option (List Char)
  | c :: rest => if pyIsSpace c then some (rest.dropWhile pyIsSpace) else none
  | [] => none

/-- The captured `[a-zA-Z_][a-zA-Z0-9_]*` group, lower-cased as
`m.group(1).lower()` does. -/
def identTake : List Char → Option (String × List Char)
  | c :: rest =>
      if isIdentStart c then
        some (String.mk ((c :: rest.takeWhile isIdentChar).map Char.toLower),
              rest.dropWhile isIdentChar)
      else none
  | [] => none

def refMatch (cs : List Char) : Option (String × List Char) :=
  match kwMatch cs with
  | none => none
  | some afterKw =>
    match spaces1 afterKw with
    | none => none
    | some afterWs => identTake afterWs

/-- Left-to-right non-overlapping scan, as `re.finditer` performs:
advance one character on a failed match, continue after the match end on
success.  Every successful match consumes at least one character, so the
input length is sufficient fuel. -/
def scanRefsAux : Nat → List Char → List String
  | 0, _ => []
  | _ + 1, [] => []
  | fuel + 1, c :: rest =>
      match refMatch (c :: rest) with
      | some (ident, rest') => ident :: scanRefsAux fuel rest'
      | none => scanRefsAux fuel rest

def scanRefs (cs : List Char) : List String := scanRefsAux cs.length cs

inductive SqlRunOutcome where
  | rejected (error : String)
  | executed (query : String)
deriving DecidableEq, Repr

/-- Embeds `POST /sql/run` for an attempt whose test id resolved to the
given `allowed` sandbox-table list. -/
def sql_run (rawQuery : String) (allowed : List String) : SqlRunOutcome :=
  let q := pyStrip rawQuery
  if q = "" then .rejected "Empty query"
  else if "SELECT".toList.isPrefixOf (pyUpper q).toList = false then
    .rejected "Only SELECT queries are allowed in this test environment."
  else if allowed.isEmpty = true then
    .rejected "Could not determine test context. Please refresh."
  else
    let bad := (scanRefs q.toList).filter (fun t => !(allowed.contains t))
    if bad.isEmpty = true then .executed q
    else
      .rejected ("Access denied. Allowed: " ++ String.intercalate ", " allowed ++
                 ". Blocked: " ++ String.intercalate ", " bad)

/-! ## AI service fallbacks (`services/ai_service.py`)

Each generator calls the external service and, on any exception or
invalid payload, returns its deterministic static fallback.  The
fallbacks themselves are pure and embedded verbatim below; the
`..._onerror` wrappers name the `except` branch of each generator. -/

structure MCQItem where
  id : Nat
  question : String
  skill : String
  difficulty : String
  options : List String
  correct_answer : Nat
  explanation : String
deriving DecidableEq, Repr

/-- Embeds `generate_fallback_mcq`: `min(count, len(skills) * 3)`
questions cycling through the skills. -/
def generate_fallback_mcq (skills : List String) (count : Nat) : List MCQItem :=
  (List.range (min count (skills.length * 3))).map (fun i =>
    let skill := skills.getD (i % skills.length) ""
    { id := i + 1,
      question := "Which of the following best describes a core concept of " ++ skill ++ "?",
      skill := skill,
      difficulty := ["easy", "medium", "hard"].getD (i % 3) "easy",
      options := [
        "A fundamental principle of " ++ skill,
        "A framework commonly used with " ++ skill,
        "A design pattern in " ++ skill,
        "A tool used alongside " ++ skill],
      correct_answer := 0,
      explanation := "This is a fundamental concept in " ++ skill ++ "." })

structure TestCase where
  input : String
  expected_output : String
deriving DecidableEq, Repr

structure CodingItem where
  id : Nat
  title : String
  difficulty : String
  description : String
  skills_tested : List String
  input_format : String
  output_format : String
  sample_input : String
  sample_output : String
  starter_code : List (String × String)
  test_cases : List TestCase
  time_limit_seconds : Nat
  hints : List String
deriving DecidableEq, Repr

/-- The static `all_problems` list of `generate_fallback_coding`. -/
def fallback_coding_problems : List CodingItem :=
  [{ id := 1, title := "Two Sum", difficulty := "easy",
     description := "Given an array of integers nums and an integer target, return indices of the two numbers that add up to target.",
     skills_tested := ["arrays", "hash-maps"],
     input_format := "First line: space-separated integers\nSecond line: target integer",
     output_format := "Space-separated indices",
     sample_input := "2 7 11 15\n9", sample_output := "0 1",
     starter_code := [
       ("python", "import sys\n\ndef two_sum(nums, target):\n    # Write your code here\n    pass\n\nif __name__ == \"__main__\":\n    nums = list(map(int, input().split()))\n    target = int(input())\n    result = two_sum(nums, target)\n    if result:\n        print(f\"\x7bresult[0]\x7d \x7bresult[1]\x7d\")"),
       ("javascript", "const fs = require(\"fs\");\nfunction twoSum(nums, target) \x7b\n    // Write your code here\n    return [];\n\x7d\nconst input = fs.readFileSync(0, \"utf-8\").trim().split(\"\\n\");\nconst nums = input[0].split(\" \").map(Number);\nconst target = Number(input[1]);\nconst result = twoSum(nums, target);\nconsole.log(result.join(\" \"));"),
       ("java", ""), ("cpp", "")],
     test_cases := [
       { input := "2 7 11 15\n9", expected_output := "0 1" },
       { input := "3 2 4\n6", expected_output := "1 2" },
       { input := "3 3\n6", expected_output := "0 1" }],
     time_limit_seconds := 5,
     hints := ["Try using a hash map", "Store complement values"] },
   { id := 2, title := "Valid Parentheses", difficulty := "medium",
     description := "Given a string containing just the characters '(', ')', '\x7b', '\x7d', '[' and ']', determine if the input string is valid.",
     skills_tested := ["stacks", "string-processing"],
     input_format := "A string of brackets",
     output_format := "true or false",
     sample_input := "()[]\x7b\x7d", sample_output := "true",
     starter_code := [
       ("python", "import sys\n\ndef is_valid(s):\n    # Write your code here\n    return False\n\nif __name__ == \"__main__\":\n    s = sys.stdin.read().strip()\n    print(\"true\" if is_valid(s) else \"false\")"),
       ("javascript", "const fs = require(\"fs\");\nfunction isValid(s) \x7b return false; \x7d\nconst s = fs.readFileSync(0,\"utf-8\").trim();\nconsole.log(isValid(s) ? \"true\" : \"false\");"),
       ("java", ""), ("cpp", "")],
     test_cases := [
       { input := "()", expected_output := "true" },
       { input := "()[]\x7b\x7d", expected_output := "true" },
       { input := "(]", expected_output := "false" }],
     time_limit_seconds := 5,
     hints := ["Use a stack", "Push opening brackets, pop for closing"] },
   { id := 3, title := "Longest Substring Without Repeating Characters", difficulty := "hard",
     description := "Given a string s, find the length of the longest substring without repeating characters.",
     skills_tested := ["sliding-window", "hash-maps"],
     input_format := "A string",
     output_format := "An integer",
     sample_input := "abcabcbb", sample_output := "3",
     starter_code := [
       ("python", "import sys\n\ndef length_of_longest(s):\n    # Write your code here\n    return 0\n\nif __name__ == \"__main__\":\n    s = sys.stdin.read().strip()\n    print(length_of_longest(s))"),
       ("javascript", "const fs = require(\"fs\");\nfunction lengthOfLongestSubstring(s) \x7b return 0; \x7d\nconst s = fs.readFileSync(0,\"utf-8\").trim();\nconsole.log(lengthOfLongestSubstring(s));"),
       ("java", ""), ("cpp", "")],
     test_cases := [
       { input := "abcabcbb", expected_output := "3" },
       { input := "bbbbb", expected_output := "1" },
       { input := "pwwkew", expected_output := "3" }],
     time_limit_seconds := 5,
     hints := ["Sliding window technique", "Use a set to track characters"] }]

/-- Embeds `generate_fallback_coding`: filter by difficulty unless
`mixed` (falling back to the full list when the filter is empty), then
take `min(count, len(filtered))`. -/
def generate_fallback_coding (skills : List String) (count : Nat)
    (difficulty_level : String) : List CodingItem :=
  let filtered :=
    if difficulty_level ≠ "" ∧ difficulty_level ≠ "mixed" then
      let f := fallback_coding_problems.filter (fun p => p.difficulty == difficulty_level)
      if f.isEmpty then fallback_coding_problems else f
    else fallback_coding_problems
  let _ := skills
  filtered.take (min count filtered.length)

structure SqlItem where
  id : Nat
  title : String
  difficulty : String
  description : String
  hint : String
  expected_columns : List String
  reference_query : String
deriving DecidableEq, Repr

/-- Embeds `_default_sql_problems`: up to three static problems. -/
def default_sql_problems (count : Nat) : List SqlItem :=
  ([{ id := 1, title := "Employee Salary Report", difficulty := "easy",
      description := "Find all employees who earn more than the average salary. Display their name, department, and salary. Order by salary descending.",
      hint := "Use a subquery with AVG().",
      expected_columns := ["name", "department", "salary"],
      reference_query := "SELECT name, department, salary FROM employees WHERE salary > (SELECT AVG(salary) FROM employees) ORDER BY salary DESC" },
    { id := 2, title := "Department Statistics", difficulty := "medium",
      description := "Show each department with the count of employees and average salary. Only include departments with more than 1 employee. Order by average salary descending.",
      hint := "Use GROUP BY with HAVING clause.",
      expected_columns := ["department", "employee_count", "avg_salary"],
      reference_query := "SELECT department, COUNT(*) as employee_count, ROUND(AVG(salary), 2) as avg_salary FROM employees GROUP BY department HAVING COUNT(*) > 1 ORDER BY avg_salary DESC" },
    { id := 3, title := "Top Revenue Products", difficulty := "hard",
      description := "Find the top 3 products by total revenue (quantity * price). Show product name, total quantity sold, and total revenue.",
      hint := "Use GROUP BY with aggregate functions and LIMIT.",
      expected_columns := ["product", "total_quantity", "total_revenue"],
      reference_query := "SELECT product, SUM(quantity) as total_quantity, SUM(quantity * price) as total_revenue FROM orders GROUP BY product ORDER BY total_revenue DESC LIMIT 3" }]
   : List SqlItem).take (min count 3)

structure InterviewQuestion where
  question : String
  category : String
  difficulty : String
  key_points : List String
  follow_up_context : String
deriving DecidableEq, Repr

/-- Embeds `_fallback_question`. -/
def fallback_question (skills : List String) (question_number : Nat) : InterviewQuestion :=
  let skill := if skills.isEmpty then "programming"
               else skills.getD (question_number % skills.length) ""
  { question := "Can you explain your understanding of " ++ skill ++
      " and describe how you would use it in a real project?",
    category := skill,
    difficulty := if question_number ≤ 3 then "easy"
                  else if question_number ≤ 7 then "medium" else "hard",
    key_points := ["Technical depth", "Practical experience", "Problem-solving approach"],
    follow_up_context := "Fallback question" }

/-- Embeds `evaluate_interview_answer` as a function of the external
judgement: `none` is the `except` branch (service error), `some (none, _)`
a response without a numeric score, `some (some s, fb)` a valid
response. -/
def evaluate_interview_answer (ai : Option (Option ℚ × String)) : EvalResult :=
  match ai with
  | some (some s, fb) => { score := s, feedback := fb }
  | some (none, _) =>
      { score := 5, feedback := "Answer received. Unable to perform detailed evaluation." }
  | none =>
      { score := 5, feedback := "Evaluation service temporarily unavailable." }

/-- The `except` branch of `generate_mcq_questions`: when the AI call
raises, the fallback set is returned. -/
def generate_mcq_questions_onerror (skills : List String) (count : Nat) : List MCQItem :=
  generate_fallback_mcq skills count

/-- The `except` branch of `generate_coding_problems` (the route calls
it with the default `difficulty_level = "mixed"`). -/
def generate_coding_problems_onerror (skills : List String) (count : Nat) : List CodingItem :=
  generate_fallback_coding skills count "mixed"

/-- The `except` branch of `generate_sql_problems`. -/
def generate_sql_problems_onerror (count : Nat) : List SqlItem :=
  default_sql_problems count

/-- The `except` branch of `generate_interview_question`. -/
def generate_interview_question_onerror (skills : List String)
    (question_number : Nat) : InterviewQuestion :=
  fallback_question skills question_number

/-! ## Sandbox provisioning (`_create_sandbox`)

A sandbox is the four per-test tables; `none` models an absent table.
`create_sandbox` issues `CREATE TABLE IF NOT EXISTS` for each, counts
the employees rows, and inserts the fixed seed data only when that count
is zero. -/

structure EmployeeRow where
  id : Int
  name : String
  department : String
  salary : ℚ
  hire_date : String
  manager_id : Option Int
deriving DecidableEq, Repr

structure DepartmentRow where
  id : Int
  name : String
  budget : ℚ
  location : String
deriving DecidableEq, Repr

structure ProjectRow where
  id : Int
  name : String
  department_id : Int
  start_date : String
  end_date : Option String
  status : String
deriving DecidableEq, Repr

structure OrderRow where
  id : Int
  customer_name : String
  product : String
  quantity : Int
  price : ℚ
  order_date : String
deriving DecidableEq, Repr

def seed_departments : List DepartmentRow :=
  [⟨1, "Engineering", 500000, "New York"⟩, ⟨2, "Marketing", 300000, "San Francisco"⟩,
   ⟨3, "Sales", 350000, "Chicago"⟩, ⟨4, "HR", 200000, "New York"⟩,
   ⟨5, "Finance", 400000, "Boston"⟩]

def seed_employees : List EmployeeRow :=
  [⟨1, "Alice Johnson", "Engineering", 95000, "2020-03-15", none⟩,
   ⟨2, "Bob Smith", "Engineering", 88000, "2021-07-01", some 1⟩,
   ⟨3, "Carol Williams", "Marketing", 72000, "2019-11-20", none⟩,
   ⟨4, "David Brown", "Marketing", 68000, "2022-01-10", some 3⟩,
   ⟨5, "Eve Davis", "Sales", 76000, "2020-06-25", none⟩,
   ⟨6, "Frank Miller", "Sales", 71000, "2021-09-14", some 5⟩,
   ⟨7, "Grace Wilson", "HR", 65000, "2018-04-03", none⟩,
   ⟨8, "Henry Taylor", "HR", 62000, "2023-02-18", some 7⟩,
   ⟨9, "Ivy Anderson", "Finance", 90000, "2019-08-12", none⟩,
   ⟨10, "Jack Thomas", "Finance", 85000, "2020-12-01", some 9⟩,
   ⟨11, "Karen Martinez", "Engineering", 92000, "2021-03-22", some 1⟩,
   ⟨12, "Leo Garcia", "Engineering", 78000, "2023-06-15", some 1⟩,
   ⟨13, "Mia Robinson", "Sales", 74000, "2022-04-10", some 5⟩,
   ⟨14, "Noah Clark", "Marketing", 70000, "2023-09-01", some 3⟩,
   ⟨15, "Olivia Lewis", "Finance", 88000, "2021-11-05", some 9⟩]

def seed_projects : List ProjectRow :=
  [⟨1, "Website Redesign", 1, "2024-01-15", some "2024-06-30", "completed"⟩,
   ⟨2, "Mobile App", 1, "2024-03-01", some "2024-12-31", "in_progress"⟩,
   ⟨3, "Q1 Campaign", 2, "2024-01-01", some "2024-03-31", "completed"⟩,
   ⟨4, "Brand Refresh", 2, "2024-06-01", some "2024-09-30", "in_progress"⟩,
   ⟨5, "Sales Portal", 3, "2024-02-15", some "2024-08-15", "completed"⟩,
   ⟨6, "CRM Integration", 3, "2024-07-01", some "2025-01-31", "in_progress"⟩,
   ⟨7, "Employee Portal", 4, "2024-04-01", some "2024-10-31", "completed"⟩,
   ⟨8, "Budget System", 5, "2024-05-01", none, "planned"⟩]

def seed_orders : List OrderRow :=
  [⟨1, "John Doe", "Laptop", 2, 1200, "2024-01-15"⟩,
   ⟨2, "Jane Smith", "Keyboard", 5, 75, "2024-01-20"⟩,
   ⟨3, "Bob Johnson", "Monitor", 3, 450, "2024-02-10"⟩,
   ⟨4, "Alice Brown", "Mouse", 10, 25, "2024-02-14"⟩,
   ⟨5, "Charlie Wilson", "Laptop", 1, 1200, "2024-03-01"⟩,
   ⟨6, "Diana Taylor", "Headphones", 4, 150, "2024-03-15"⟩,
   ⟨7, "John Doe", "Monitor", 1, 450, "2024-04-02"⟩,
   ⟨8, "Jane Smith", "Laptop", 1, 1200, "2024-04-18"⟩,
   ⟨9, "Eve Martinez", "Keyboard", 3, 75, "2024-05-05"⟩,
   ⟨10, "Frank Garcia", "Mouse", 8, 25, "2024-05-20"⟩,
   ⟨11, "Grace Lee", "Laptop", 2, 1200, "2024-06-10"⟩,
   ⟨12, "Bob Johnson", "Headphones", 2, 150, "2024-06-25"⟩,
   ⟨13, "Alice Brown", "Monitor", 1, 450, "2024-07-08"⟩,
   ⟨14, "Charlie Wilson", "Keyboard", 6, 75, "2024-07-22"⟩,
   ⟨15, "Diana Taylor", "Laptop", 1, 1200, "2024-08-05"⟩]

structure SandboxState where
  employees : Option (List EmployeeRow) := none
  departments : Option (List DepartmentRow) := none
  projects : Option (List ProjectRow) := none
  orders : Option (List OrderRow) := none
deriving DecidableEq, Repr

/-- The `CREATE TABLE IF NOT EXISTS` step: an absent table becomes an
empty one, an existing table is untouched. -/
def ensureTable {α : Type} : Option (List α) → List α
  | none => []
  | some rows => rows

/-- Embeds `_create_sandbox` for one test id: create the four tables if
absent, then seed all four only when the employees table has zero
rows. -/
def create_sandbox (s : SandboxState) : SandboxState :=
  let emp := ensureTable s.employees
  let dep := ensureTable s.departments
  let prj := ensureTable s.projects
  let ord := ensureTable s.orders
  if emp.length = 0 then
    { employees := some (emp ++ seed_employees),
      departments := some (dep ++ seed_departments),
      projects := some (prj ++ seed_projects),
      orders := some (ord ++ seed_orders) }
  else
    { employees := some emp, departments := some dep,
      projects := some prj, orders := some ord }

/-- The state before a test's sandbox has ever been created: none of its
four tables exist. -/
def freshSandbox : SandboxState := {}

/-! ## Spec-side definitions

These two definitions follow the specification's wording (not the code)
and exist only to be compared with the code's behaviour. -/

/-- Follows the spec wording for the MCQ score: the answer recorded for
a question id (string key, falling back to the numeric key) — without
Python's falsy-`or` coalescing. -/
def spec_answer_lookup (answers : Answers) (qid : Int) : Option AVal :=
  match lookupAns answers (.str (toString qid)) with
  | some v => some v
  | none => lookupAns answers (.int qid)

/-- Follows the spec wording for C4: a question counts as correct when
the submitted option index/letter exactly matches the `correct_answer`
index. -/
def spec_mcq_correct_count (questions : List MCQuestion) (answers : Answers) : Nat :=
  questions.countP (fun q =>
    mcq_answer_index (spec_answer_lookup answers q.id)
      == mcq_answer_index (some (q.correct_answer.getD (.n (-2)))))

/-- Follows the spec wording for C8: the number of problems that have a
recorded submission. -/
def spec_problems_with_submission (a : Attempt) : Nat :=
  a.coding_problems.countP (fun p =>
    (lookupStr a.coding_submissions (toString p.id)).isSome)

/-! ## Stage-order machinery (for the state-machine claim)

One constructor per stage-mutating operation of the routes, with the
inputs each takes. -/

inductive StageOp where
  | mcqOp (answers : Answers) (rep : Report)
  | codingOp (rep : Report)
  | sqlOp (rep : Report)
  | interviewOp (q ans : String) (ev : EvalResult) (rep : Report)

def op_stage : StageOp → String
  | .mcqOp .. => "mcq"
  | .codingOp .. => "coding"
  | .sqlOp .. => "sql"
  | .interviewOp .. => "interview"

def apply_op (a : Attempt) : StageOp → Attempt
  | .mcqOp answers rep => (mcq_submit a answers rep).1
  | .codingOp rep => (coding_finish a rep).1
  | .sqlOp rep => (sql_finish a rep).1
  | .interviewOp q ans ev rep => (interview_answer a q ans ev rep).1

/-- The linear stage order `mcq → coding → sql → interview → completed`. -/
def next_stage_of : String → Option String
  | "mcq" => some "coding"
  | "coding" => some "sql"
  | "sql" => some "interview"
  | "interview" => some "completed"
  | _ => none

def stage_status_of (a : Attempt) : String → String
  | "mcq" => a.mcq_status
  | "coding" => a.coding_status
  | "sql" => a.sql_status
  | "interview" => a.interview_status
  | _ => ""

/-! ## Concrete instances used by witnesses and counterexamples -/

def repX : Report := { overall_rating := "Needs Improvement", summary := "stage failed" }

def cexC1_questions : List MCQuestion :=
  [{ id := 1, question := "Q1", options := ["a", "b", "c", "d"],
     correct_answer := some (.n 0) }]

/-- C1 counterexample: an attempt whose MCQ stage already failed (score
50 stored, `current_stage` still `mcq`) with one stored question whose
correct answer is option 0. -/
def cexC1_attempt : Attempt :=
  { current_stage := some "mcq", overall_status := "failed",
    mcq_status := "failed", mcq_score := 50,
    mcq_questions := cexC1_questions }

/-- C1 counterexample resubmission: the letter `A`, which scores as
index 0 and is now fully correct. -/
def cexC1_answers : Answers := [(.str "1", .s "A")]

/-- C1 witness: an attempt whose MCQ stage is completed (replay guard
taken). -/
def witC1_attempt : Attempt :=
  { current_stage := some "coding", mcq_status := "completed", mcq_score := 80,
    mcq_questions := [{ id := 1, correct_answer := some (.n 0) }] }

/-- C2 counterexample: a fresh attempt (still at the MCQ stage, MCQ
pending) that already has one coding problem and a matching recorded
submission. -/
def cexC2_attempt : Attempt :=
  { current_stage := some "mcq", mcq_status := "pending",
    coding_problems := [{ id := 1, title := "P1" }],
    coding_submissions := [("1", { code := "print(1)", language := "python" })] }

/-- C2 witness: a fresh one-question attempt submitted with no answers. -/
def witC2_attempt : Attempt :=
  { current_stage := some "mcq",
    mcq_questions := [{ id := 1, correct_answer := some (.n 0) }] }

def cexC4_questions : List MCQuestion :=
  [{ id := 1, question := "Q1", options := ["a", "b", "c", "d"],
     correct_answer := some (.n 0) }]

/-- C4 counterexample: correct answer is option 0 and the student
submits the numeric index 0 under the JSON string key. -/
def cexC4_attempt : Attempt :=
  { current_stage := some "mcq", mcq_status := "pending",
    mcq_questions := cexC4_questions }

def cexC4_answers : Answers := [(.str "1", .n 0)]

def witC4_questions : List MCQuestion :=
  [{ id := 1, correct_answer := some (.n 0) },
   { id := 2, correct_answer := some (.n 1) }]

/-- C4 witness: the spec scenario — two questions, passing score 60, the
student answers exactly one of them correctly (by letter). -/
def witC4_attempt : Attempt :=
  { current_stage := some "mcq", mcq_status := "pending", mcq_passing_score := 60,
    mcq_questions := witC4_questions }

def witC4_answers : Answers := [(.str "1", .s "A"), (.str "2", .s "A")]

/-- C6 counterexample: a single-turn interview whose test was created
with `interview_passing_score = 0`. -/
def cexC6_attempt : Attempt :=
  { current_stage := some "interview", interview_count := 1,
    interview_passing_score := 0 }

def cexC6_eval : EvalResult := { score := 3 }

/-- C6 witness: the spec scenario — `interview_count = 3`, two turns
already stored (scores 6 and 7), third answer scored 8. -/
def witC6_attempt : Attempt :=
  { current_stage := some "interview", interview_count := 3,
    interview_passing_score := 5,
    interview_qa := [{ question := "q1", answer := "a1", score := 6 },
                     { question := "q2", answer := "a2", score := 7 }] }

def witC6_eval : EvalResult := { score := 8 }

/-- C8 counterexample: two problems, one submission recorded under a
problem id (`99`) that matches neither of them. -/
def cexC8_attempt : Attempt :=
  { current_stage := some "coding",
    coding_problems := [{ id := 1, title := "P1" }, { id := 2, title := "P2" }],
    coding_submissions := [("99", { code := "x", language := "python" })] }

/-- C8 witness: three problems, two submissions recorded under matching
ids. -/
def witC8_attempt : Attempt :=
  { current_stage := some "coding",
    coding_problems := [{ id := 1 }, { id := 2 }, { id := 3 }],
    coding_submissions := [("1", { code := "a", language := "python" }),
                           ("2", { code := "b", language := "python" })] }

/-! ## Helper lemmas -/

theorem lookupStr_updateAssoc {α : Type} (l : List (String × α)) (k : String) (v : α) :
    lookupStr (updateAssoc l k v) k = some v := by
  induction l with
  | nil => simp [updateAssoc, lookupStr]
  | cons p rest ih =>
      obtain ⟨k', v'⟩ := p
      by_cases h : k' = k
      · simp [updateAssoc, lookupStr, h]
      · simp [updateAssoc, lookupStr, h, ih]

theorem str_append_ne_empty_left (a b : String) (h : a ≠ "") : a ++ b ≠ "" := by
  intro hab
  apply h
  have hlen : (a ++ b).length = 0 := by rw [hab]; rfl
  rw [String.length_append] at hlen
  have : a.length = 0 := by omega
  exact String.ext (List.length_eq_zero.mp this)

/-! ## Claim theorems -/

/-- C3: `start_attempt` rejects with the attempt-limit client error exactly
when the number of existing attempts for this (test, student) pair is at least
`attempt_limit` (creating no row), and otherwise appends exactly one new
attempt with `attempt_number = priorCount + 1`, `current_stage = mcq`, and
`overall_status = in_progress`. -/
theorem start_attempt_limit (test : SkillTest) (prior : List Attempt) :
    (start_attempt test prior = .error "Attempt limit reached for this test" ↔
       (prior.length : Int) ≥ test.attempt_limit)
  ∧ ((prior.length : Int) < test.attempt_limit →
       start_attempt test prior = .ok (prior ++ [new_attempt test (prior.length + 1)])
       ∧ (new_attempt test (prior.length + 1)).attempt_number = prior.length + 1
       ∧ (new_attempt test (prior.length + 1)).current_stage = some "mcq"
       ∧ (new_attempt test (prior.length + 1)).overall_status = "in_progress") := by
  unfold start_attempt
  by_cases h : (prior.length : Int) ≥ test.attempt_limit
  · rw [if_pos h]
    exact ⟨⟨fun _ => h, fun _ => rfl⟩, fun hlt => absurd h (not_le.mpr hlt)⟩
  · rw [if_neg h]
    refine ⟨⟨fun he => Except.noConfusion he, fun hge => absurd hge h⟩, ?_⟩
    exact fun _ => ⟨rfl, rfl, rfl, rfl⟩

/-- C3 witness: with `attempt_limit = 1` the first start succeeds and creates
the one row, the second start is rejected. -/
theorem start_attempt_limit_witness :
    start_attempt { attempt_limit := 1 } [] =
      .ok [new_attempt { attempt_limit := 1 } 1]
  ∧ start_attempt { attempt_limit := 1 } [new_attempt { attempt_limit := 1 } 1] =
      .error "Attempt limit reached for this test" := by
  constructor
  · have h := ((start_attempt_limit { attempt_limit := 1 } []).2 (by decide)).1
    simpa using h
  · exact (start_attempt_limit { attempt_limit := 1 }
      [new_attempt { attempt_limit := 1 } 1]).1.mpr (by decide)

/-- C9: creating the same test's sandbox twice in sequence from scratch leaves
exactly the four tables holding exactly the fixed reference seed dataset
(15 employees, 5 departments, 8 projects, 15 orders); the second call is a
no-op because table creation is if-not-exists and seeding is guarded by the
employees row count. -/
theorem create_sandbox_idempotent :
    create_sandbox (create_sandbox freshSandbox) = create_sandbox freshSandbox
  ∧ (create_sandbox freshSandbox).employees = some seed_employees
  ∧ (create_sandbox freshSandbox).departments = some seed_departments
  ∧ (create_sandbox freshSandbox).projects = some seed_projects
  ∧ (create_sandbox freshSandbox).orders = some seed_orders
  ∧ seed_employees.length = 15 ∧ seed_departments.length = 5
  ∧ seed_projects.length = 8 ∧ seed_orders.length = 15 :=
  ⟨rfl, rfl, rfl, rfl, rfl, rfl, rfl, rfl, rfl⟩

/-- C10: for any submission payload (any code, any language), `coding_submit`
records the submission with `passed = true`, responds with `all_passed = true`
and a passing test result, and the recorded problem counts as solved by the
coding-statistics predicate. -/
theorem coding_submit_unconditional_pass (a : Attempt) (pid : Int)
    (code language : String) (h : pid ≠ 0) :
    ∃ a' r, coding_submit a pid code language = some (a', r)
      ∧ r.all_passed = true
      ∧ r.test_results = [{ passed := true, name := "Submission accepted" }]
      ∧ lookupStr a'.coding_submissions (toString pid) =
          some { code := code, language := language, passed := true }
      ∧ sub_passed a'.coding_submissions (toString pid) = true := by
  unfold coding_submit
  rw [if_neg h]
  refine ⟨_, _, rfl, rfl, rfl, lookupStr_updateAssoc _ _ _, ?_⟩
  simp [sub_passed, lookupStr_updateAssoc]

/-- C10 witness: an empty-code submission in an unknown language still passes
and is recorded as solved. -/
theorem coding_submit_unconditional_pass_witness :
    ∃ a' r, coding_submit {} 1 "" "brainfuck" = some (a', r)
      ∧ r.all_passed = true
      ∧ r.test_results = [{ passed := true, name := "Submission accepted" }]
      ∧ lookupStr a'.coding_submissions (toString (1 : Int)) =
          some { code := "", language := "brainfuck", passed := true }
      ∧ sub_passed a'.coding_submissions (toString (1 : Int)) = true :=
  coding_submit_unconditional_pass {} 1 "" "brainfuck" (by decide)

/-- C1 counterexample: an attempt whose MCQ stage already failed (stored score
50) is re-scored on resubmission — the route returns a fresh score of 100 and
mutates the stored state instead of replaying the stored result. -/
theorem mcq_resubmit_after_fail_rescores :
    cexC1_attempt.mcq_status = "failed"
  ∧ cexC1_attempt.mcq_score = 50
  ∧ (mcq_submit cexC1_attempt cexC1_answers repX).2.score = 100
  ∧ (mcq_submit cexC1_attempt cexC1_answers repX).1 ≠ cexC1_attempt
  ∧ (mcq_submit cexC1_attempt cexC1_answers repX).1.current_stage = some "coding" := by
  have hc : mcq_correct_count cexC1_questions cexC1_answers = 1 := by decide
  have hlen : cexC1_questions.length = 1 := by decide
  have hne : (("failed" : String) = "completed") = False :=
    eq_false (by decide)
  have hne2 : (("coding" : String) = "mcq") = False :=
    eq_false (by decide)
  refine ⟨rfl, rfl, ?_, ?_, ?_⟩ <;>
    norm_num [mcq_submit, cexC1_attempt, stage_truthy, hc, hlen, pyOrInt, hne, hne2,
      Attempt.mk.injEq]

/-- C2 counterexample: `coding_finish` on a fresh attempt that is still at the
MCQ stage (MCQ pending, never passed) moves `current_stage` straight to `sql`,
skipping past the unpassed MCQ stage. -/
theorem coding_finish_skips_unpassed_mcq :
    cexC2_attempt.current_stage = some "mcq"
  ∧ cexC2_attempt.mcq_status = "pending"
  ∧ (coding_finish cexC2_attempt repX).1.current_stage = some "sql" := by
  refine ⟨rfl, rfl, ?_⟩
  norm_num [coding_finish, cexC2_attempt, pyOrInt]

/-- C4 counterexample: the submitted option index `0` exactly matches the
`correct_answer` index `0` (the spec-side count gives 1/1, i.e. score 100),
yet the route scores the submission 0 and fails it, because Python's
`answers.get(str(id)) or answers.get(id)` discards the falsy value `0`. -/
theorem mcq_zero_index_answer_marked_wrong :
    spec_mcq_correct_count cexC4_attempt.mcq_questions cexC4_answers = 1
  ∧ (spec_mcq_correct_count cexC4_attempt.mcq_questions cexC4_answers : ℚ) /
      (cexC4_attempt.mcq_questions.length : ℚ) * 100 = 100
  ∧ (mcq_submit cexC4_attempt cexC4_answers repX).2.score = 0
  ∧ (mcq_submit cexC4_attempt cexC4_answers repX).2.passed = false := by
  have hs : spec_mcq_correct_count cexC4_questions cexC4_answers = 1 := by decide
  have hc : mcq_correct_count cexC4_questions cexC4_answers = 0 := by decide
  have hlen : cexC4_questions.length = 1 := by decide
  have hne : (("pending" : String) = "completed") = False :=
    eq_false (by decide)
  refine ⟨hs, ?_, ?_, ?_⟩ <;>
    norm_num [mcq_submit, cexC4_attempt, stage_truthy, hs, hc, hlen, pyOrInt, hne]

/-- C6 counterexample: with `interview_passing_score = 0` the final average 3
does satisfy `mean ≥ interview_passing_score`, yet the attempt is marked
failed, because the code compares against `interview_passing_score or 5`. -/
theorem interview_zero_threshold_defaults_to_five :
    cexC6_attempt.interview_passing_score = 0
  ∧ (interview_answer cexC6_attempt "Q" "A" cexC6_eval repX).1.interview_score = 3
  ∧ ((3 : ℚ) ≥ (cexC6_attempt.interview_passing_score : ℚ))
  ∧ (interview_answer cexC6_attempt "Q" "A" cexC6_eval repX).1.interview_status = "failed"
  ∧ (interview_answer cexC6_attempt "Q" "A" cexC6_eval repX).1.overall_status = "failed"
  ∧ (interview_answer cexC6_attempt "Q" "A" cexC6_eval repX).1.current_stage = some "interview" := by
  refine ⟨rfl, ?_, by norm_num [cexC6_attempt], ?_, ?_, ?_⟩ <;>
    norm_num [interview_answer, cexC6_attempt, cexC6_eval, pyOrInt]

/-- C7 counterexample: with an empty skills list the MCQ fallback returns an
empty question set (`min(count, len(skills)*3) = 0`), so content generation
under AI failure is not non-empty for every skills list and count. -/
theorem fallback_mcq_empty_for_empty_skills :
    generate_mcq_questions_onerror [] 10 = ([] : List MCQItem) := rfl

/-- C8 counterexample: two problems and one submission recorded under a
non-matching problem id — no problem has a recorded submission (spec-side
score 0), yet `coding_finish` scores `len(subs)/total × 100 = 50`. -/
theorem coding_score_counts_unmatched_submissions :
    spec_problems_with_submission cexC8_attempt = 0
  ∧ (coding_finish cexC8_attempt repX).2.score = 50
  ∧ (spec_problems_with_submission cexC8_attempt : ℚ) /
      (cexC8_attempt.coding_problems.length : ℚ) * 100 = 0 := by
  have hs : spec_problems_with_submission cexC8_attempt = 0 := by decide
  refine ⟨hs, ?_, ?_⟩
  · norm_num [coding_finish, cexC8_attempt, pyOrInt]
  · rw [hs]
    norm_num [cexC8_attempt]

/-- C1 (amended): the only replay guard is in `mcq_submit` — when
`mcq_status` is `completed`, or `current_stage` is set and different from
`mcq`, the route returns the previously stored score and pass flag and leaves
the stored state unchanged.  (A failed MCQ stage keeps `current_stage = mcq`
and is therefore re-scored on resubmission, and the coding/SQL finish routes
have no guard at all.) -/
theorem mcq_submit_replay_guard (a : Attempt) (answers : Answers) (rep : Report)
    (h : a.mcq_status = "completed" ∨
         (stage_truthy a.current_stage = true ∧ a.current_stage ≠ some "mcq")) :
    (mcq_submit a answers rep).1 = a
  ∧ (mcq_submit a answers rep).2.score = a.mcq_score
  ∧ (mcq_submit a answers rep).2.passed =
      decide (a.mcq_score ≥ (a.mcq_passing_score : ℚ)) := by
  simp only [mcq_submit]
  rw [if_pos h]
  exact ⟨rfl, rfl, rfl⟩

/-- C1 witness: a completed MCQ stage replays the stored result without
mutating the attempt. -/
theorem mcq_submit_replay_guard_witness :
    (mcq_submit witC1_attempt [] repX).1 = witC1_attempt
  ∧ (mcq_submit witC1_attempt [] repX).2.score = witC1_attempt.mcq_score := by
  have h := mcq_submit_replay_guard witC1_attempt [] repX (Or.inl rfl)
  exact ⟨h.1, h.2.1⟩

/-- C2 (amended): when each stage-mutating operation is invoked only while
`current_stage` equals its own stage (a discipline the routes themselves do
not enforce), `current_stage` never regresses: it either stays unchanged or
advances to the immediately next stage of
`mcq → coding → sql → interview → completed`, and only with that stage's
status set to `completed`. -/
theorem stage_transitions_linear (a : Attempt) (op : StageOp)
    (h : a.current_stage = some (op_stage op)) :
    (apply_op a op).current_stage = a.current_stage
  ∨ ((apply_op a op).current_stage = next_stage_of (op_stage op)
     ∧ stage_status_of (apply_op a op) (op_stage op) = "completed") := by
  cases op with
  | mcqOp answers rep =>
      simp only [op_stage] at h
      simp only [apply_op, op_stage, mcq_submit, next_stage_of, stage_status_of]
      by_cases hg : a.mcq_status = "completed" ∨
          (stage_truthy a.current_stage = true ∧ a.current_stage ≠ some "mcq")
      · rw [if_pos hg]
        exact Or.inl rfl
      · rw [if_neg hg]
        split <;> split
        · exact Or.inr ⟨rfl, rfl⟩
        · exact Or.inl h.symm
        · exact Or.inr ⟨rfl, rfl⟩
        · exact Or.inl h.symm
  | codingOp rep =>
      simp only [op_stage] at h
      simp only [apply_op, op_stage, coding_finish, next_stage_of, stage_status_of]
      split <;> split
      · exact Or.inr ⟨rfl, rfl⟩
      · exact Or.inl h.symm
      · exact Or.inr ⟨rfl, rfl⟩
      · exact Or.inl h.symm
  | sqlOp rep =>
      simp only [op_stage] at h
      simp only [apply_op, op_stage, sql_finish, next_stage_of, stage_status_of]
      split <;> split
      · exact Or.inr ⟨rfl, rfl⟩
      · exact Or.inl h.symm
      · exact Or.inr ⟨rfl, rfl⟩
      · exact Or.inl h.symm
  | interviewOp q ans ev rep =>
      simp only [op_stage] at h
      simp only [apply_op, op_stage, interview_answer, next_stage_of, stage_status_of]
      split
      · split <;> split
        · exact Or.inr ⟨rfl, rfl⟩
        · exact Or.inl h.symm
        · exact Or.inr ⟨rfl, rfl⟩
        · exact Or.inl h.symm
      · exact Or.inl rfl

/-- C2 witness: an in-discipline MCQ submission on a fresh attempt satisfies
the linear-transition property. -/
theorem stage_transitions_linear_witness :
    (apply_op witC2_attempt (.mcqOp [] repX)).current_stage = witC2_attempt.current_stage
  ∨ ((apply_op witC2_attempt (.mcqOp [] repX)).current_stage =
        next_stage_of (op_stage (.mcqOp [] repX))
     ∧ stage_status_of (apply_op witC2_attempt (.mcqOp [] repX))
         (op_stage (.mcqOp [] repX)) = "completed") :=
  stage_transitions_linear witC2_attempt (.mcqOp [] repX) rfl

/-- C4 (amended): on a fresh (unguarded) submission with at least one stored
question, the MCQ score is `matches / total × 100`, where a question matches
when the answer found by the falsy-coalescing id lookup maps to the same index
as `correct_answer`; the stage passes exactly when the score reaches
`mcq_passing_score` (0/NULL treated as 60); and on failure the attempt is
marked failed with `current_stage` pinned at `mcq` and the generated report
stored. -/
theorem mcq_submit_score_formula (a : Attempt) (answers : Answers) (rep : Report)
    (hg : ¬(a.mcq_status = "completed" ∨
            (stage_truthy a.current_stage = true ∧ a.current_stage ≠ some "mcq")))
    (hq : a.mcq_questions ≠ []) :
    ((mcq_submit a answers rep).2.score =
       (mcq_correct_count a.mcq_questions answers : ℚ) /
         (a.mcq_questions.length : ℚ) * 100)
  ∧ ((mcq_submit a answers rep).2.passed = true ↔
       (mcq_submit a answers rep).2.score ≥ (pyOrInt a.mcq_passing_score 60 : ℚ))
  ∧ ((mcq_submit a answers rep).2.passed = false →
       (mcq_submit a answers rep).1.mcq_status = "failed"
       ∧ (mcq_submit a answers rep).1.overall_status = "failed"
       ∧ (mcq_submit a answers rep).1.current_stage = some "mcq"
       ∧ (mcq_submit a answers rep).1.report = some rep)
  ∧ ((mcq_submit a answers rep).2.passed = true →
       (mcq_submit a answers rep).1.mcq_status = "completed"
       ∧ (mcq_submit a answers rep).1.current_stage = some "coding") := by
  have hlen : ¬(a.mcq_questions.length = 0) := by
    simpa [List.length_eq_zero] using hq
  simp only [mcq_submit]
  rw [if_neg hg, if_neg hlen]
  by_cases hp : (mcq_correct_count a.mcq_questions answers : ℚ) /
      (a.mcq_questions.length : ℚ) * 100 ≥ (pyOrInt a.mcq_passing_score 60 : ℚ)
  · rw [if_pos hp]
    exact ⟨rfl, by simp [hp], by simp, fun _ => ⟨rfl, rfl⟩⟩
  · rw [if_neg hp]
    exact ⟨rfl, by simp [hp], fun _ => ⟨rfl, rfl, rfl, rfl⟩, by simp⟩

/-- C4 witness: the spec scenario — two questions, passing score 60, exactly
one answered correctly: score 50, stage failed, overall failed, stage pinned
at `mcq`, report stored. -/
theorem mcq_submit_score_formula_witness :
    (mcq_submit witC4_attempt witC4_answers repX).2.score =
      (mcq_correct_count witC4_attempt.mcq_questions witC4_answers : ℚ) /
        (witC4_attempt.mcq_questions.length : ℚ) * 100
  ∧ (mcq_submit witC4_attempt witC4_answers repX).2.score = 50
  ∧ (mcq_submit witC4_attempt witC4_answers repX).2.passed = false
  ∧ (mcq_submit witC4_attempt witC4_answers repX).1.overall_status = "failed"
  ∧ (mcq_submit witC4_attempt witC4_answers repX).1.current_stage = some "mcq"
  ∧ (mcq_submit witC4_attempt witC4_answers repX).1.report = some repX := by
  have h1 := mcq_submit_score_formula witC4_attempt witC4_answers repX
    (by decide) (by decide)
  have hc : mcq_correct_count witC4_attempt.mcq_questions witC4_answers = 1 := by decide
  have hl : witC4_attempt.mcq_questions.length = 2 := by decide
  have hscore : (mcq_submit witC4_attempt witC4_answers repX).2.score = 50 := by
    rw [h1.1, hc, hl]; norm_num
  have hpassed : (mcq_submit witC4_attempt witC4_answers repX).2.passed = false := by
    cases hb : (mcq_submit witC4_attempt witC4_answers repX).2.passed with
    | false => rfl
    | true =>
        have hge := h1.2.1.mp hb
        rw [hscore] at hge
        norm_num [pyOrInt, witC4_attempt] at hge
  have h3 := h1.2.2.1 hpassed
  exact ⟨h1.1, hscore, hpassed, h3.2.1, h3.2.2.1, h3.2.2.2⟩

/-- C5: `sql_run` rejects a query that is not (case-insensitively) a SELECT;
it rejects, before execution, any query whose scanned FROM/JOIN identifiers
include a table outside the test's four sandbox tables, with a message listing
the allowed and blocked names; in particular `SELECT * FROM users` is rejected
this way. -/
theorem sql_run_table_gate (testId : Int) (query : String) :
    (pyStrip query ≠ "" →
     "SELECT".toList.isPrefixOf (pyUpper (pyStrip query)).toList = false →
       sql_run query (sandbox_names testId) =
         .rejected "Only SELECT queries are allowed in this test environment.")
  ∧ ("SELECT".toList.isPrefixOf (pyUpper (pyStrip query)).toList = true →
     (scanRefs (pyStrip query).toList).filter
         (fun t => !((sandbox_names testId).contains t)) ≠ [] →
       sql_run query (sandbox_names testId) =
         .rejected ("Access denied. Allowed: " ++
           String.intercalate ", " (sandbox_names testId) ++ ". Blocked: " ++
           String.intercalate ", " ((scanRefs (pyStrip query).toList).filter
             (fun t => !((sandbox_names testId).contains t)))))
  ∧ sql_run "SELECT * FROM users" (sandbox_names 7) =
      .rejected "Access denied. Allowed: st7_employees, st7_departments, st7_projects, st7_orders. Blocked: users" := by
  refine ⟨?_, ?_, ?_⟩
  · intro h1 h2
    simp only [sql_run]
    rw [if_neg h1, if_pos h2]
  · intro hsel hbad
    have h1 : pyStrip query ≠ "" := by
      intro he
      rw [he] at hsel
      exact absurd hsel (by decide)
    have h2 : ¬("SELECT".toList.isPrefixOf (pyUpper (pyStrip query)).toList = false) := by
      rw [hsel]; decide
    have h3 : ¬((sandbox_names testId).isEmpty = true) := by
      simp [sandbox_names, BASE_TABLES]
    have h4 : ¬(((scanRefs (pyStrip query).toList).filter
        (fun t => !((sandbox_names testId).contains t))).isEmpty = true) := by
      simpa [List.isEmpty_iff] using hbad
    simp only [sql_run]
    rw [if_neg h1, if_neg h2, if_neg h3, if_neg h4]
  · decide

/-- C5 witness: a DROP statement is rejected by the SELECT gate, and the
spec's example query is rejected by the table gate. -/
theorem sql_run_table_gate_witness :
    sql_run "DROP TABLE st7_employees" (sandbox_names 7) =
      .rejected "Only SELECT queries are allowed in this test environment."
  ∧ sql_run "SELECT * FROM users" (sandbox_names 7) =
      .rejected "Access denied. Allowed: st7_employees, st7_departments, st7_projects, st7_orders. Blocked: users" :=
  ⟨(sql_run_table_gate 7 "DROP TABLE st7_employees").1 (by decide) (by decide),
   (sql_run_table_gate 7 "SELECT * FROM users").2.2⟩

/-- C7 (amended): for a non-empty skills list and positive count, every
stage's content generation still returns non-empty, schema-valid content from
the deterministic static fallback when the external AI call errors (the MCQ
fallback is empty exactly when the skills list is empty or the count is 0),
and a failed interview-answer judgement is substituted with the neutral
score 5. -/
theorem fallback_content_nonempty (skills : List String) (count : Nat)
    (hs : skills ≠ []) (hc : 1 ≤ count) :
    generate_mcq_questions_onerror skills count ≠ []
  ∧ (∀ item ∈ generate_mcq_questions_onerror skills count,
       item.options.length = 4 ∧ item.correct_answer = 0)
  ∧ generate_coding_problems_onerror skills count ≠ []
  ∧ (∀ p ∈ generate_coding_problems_onerror skills count,
       p.test_cases.length = 3 ∧ p.starter_code.length = 4 ∧ p.hints ≠ [])
  ∧ generate_sql_problems_onerror count ≠ []
  ∧ (∀ p ∈ generate_sql_problems_onerror count,
       p.reference_query ≠ "" ∧ p.expected_columns ≠ [])
  ∧ (generate_interview_question_onerror skills count).question ≠ ""
  ∧ (generate_interview_question_onerror skills count).key_points.length = 3
  ∧ (evaluate_interview_answer none).score = 5 := by
  have hsl : 1 ≤ skills.length := List.length_pos.mpr hs
  refine ⟨?_, ?_, ?_, ?_, ?_, ?_, ?_, rfl, rfl⟩
  · intro he
    have := congrArg List.length he
    simp only [generate_mcq_questions_onerror, generate_fallback_mcq,
      List.length_map, List.length_range, List.length_nil] at this
    omega
  · intro item hitem
    simp only [generate_mcq_questions_onerror, generate_fallback_mcq,
      List.mem_map] at hitem
    obtain ⟨i, _, rfl⟩ := hitem
    exact ⟨rfl, rfl⟩
  · intro he
    have := congrArg List.length he
    simp only [generate_coding_problems_onerror, generate_fallback_coding,
      List.length_take, List.length_nil] at this
    simp only [fallback_coding_problems] at this
    norm_num at this
    omega
  · intro p hp
    have hmem : p ∈ fallback_coding_problems := by
      have hsub := List.take_subset
        (min count
          (if ("mixed" : String) ≠ "" ∧ ("mixed" : String) ≠ "mixed" then
            (let f := fallback_coding_problems.filter (fun q => q.difficulty == "mixed")
             if f.isEmpty then fallback_coding_problems else f)
           else fallback_coding_problems).length)
        fallback_coding_problems
      simp only [generate_coding_problems_onerror, generate_fallback_coding] at hp
      have hcond : ¬(("mixed" : String) ≠ "" ∧ ("mixed" : String) ≠ "mixed") := by
        simp
      rw [if_neg hcond] at hp
      exact List.take_subset _ _ hp
    fin_cases hmem <;> refine ⟨rfl, rfl, by decide⟩
  · intro he
    have := congrArg List.length he
    simp only [generate_sql_problems_onerror, default_sql_problems,
      List.length_take, List.length_nil] at this
    norm_num at this
    omega
  · intro p hp
    have hmem := List.take_subset _ _
      (by simpa [generate_sql_problems_onerror, default_sql_problems] using hp)
    fin_cases hmem <;> exact ⟨by decide, by decide⟩
  · simp only [generate_interview_question_onerror, fallback_question]
    split
    · exact str_append_ne_empty_left _ _
        (str_append_ne_empty_left _ _ (by decide))
    · exact str_append_ne_empty_left _ _
        (str_append_ne_empty_left _ _ (by decide))

/-- C7 witness: with one skill and count 10 the fallback MCQ set is
non-empty. -/
theorem fallback_content_nonempty_witness :
    generate_mcq_questions_onerror ["Python"] 10 ≠ []
  ∧ (evaluate_interview_answer none).score = 5 :=
  ⟨(fallback_content_nonempty ["Python"] 10 (by decide) (by decide)).1,
   (fallback_content_nonempty ["Python"] 10 (by decide) (by decide)).2.2.2.2.2.2.2.2⟩

/-- C8 (amended): the coding-finish score is
`(number of recorded submission entries) / (total problems) × 100` —
submission entries are keyed by the submitted problem id and need not
correspond to any stored problem — with no test-case execution, and the stage
passes exactly when the score reaches `coding_passing_score` (0/NULL treated
as 60). -/
theorem coding_finish_submission_count (a : Attempt) (rep : Report) :
    ((coding_finish a rep).2.score =
       if a.coding_problems.length = 0 then (0 : ℚ)
       else (a.coding_submissions.length : ℚ) / (a.coding_problems.length : ℚ) * 100)
  ∧ ((coding_finish a rep).2.passed = true ↔
       (coding_finish a rep).2.score ≥ (pyOrInt a.coding_passing_score 60 : ℚ))
  ∧ ((coding_finish a rep).2.passed = true →
       (coding_finish a rep).1.coding_status = "completed"
       ∧ (coding_finish a rep).1.current_stage = some "sql")
  ∧ ((coding_finish a rep).2.passed = false →
       (coding_finish a rep).1.coding_status = "failed"
       ∧ (coding_finish a rep).1.overall_status = "failed"
       ∧ (coding_finish a rep).1.current_stage = some "coding"
       ∧ (coding_finish a rep).1.report = some rep) := by
  simp only [coding_finish]
  split <;> split
  · exact ⟨rfl, by simp_all, fun _ => ⟨rfl, rfl⟩, by simp⟩
  · exact ⟨rfl, by simp_all, by simp, fun _ => ⟨rfl, rfl, rfl, rfl⟩⟩
  · exact ⟨rfl, by simp_all, fun _ => ⟨rfl, rfl⟩, by simp⟩
  · exact ⟨rfl, by simp_all, by simp, fun _ => ⟨rfl, rfl, rfl, rfl⟩⟩

/-- C8 witness: three problems and two recorded submissions give score
`2/3 × 100 ≥ 60`, so the stage passes and advances to `sql`. -/
theorem coding_finish_submission_count_witness :
    (coding_finish witC8_attempt repX).2.score =
      (if witC8_attempt.coding_problems.length = 0 then (0 : ℚ)
       else (witC8_attempt.coding_submissions.length : ℚ) /
         (witC8_attempt.coding_problems.length : ℚ) * 100)
  ∧ (coding_finish witC8_attempt repX).1.current_stage = some "sql" := by
  have h := coding_finish_submission_count witC8_attempt repX
  have hscore : (coding_finish witC8_attempt repX).2.score = (2 : ℚ) / 3 * 100 := by
    rw [h.1]; norm_num [witC8_attempt]
  have hpassed : (coding_finish witC8_attempt repX).2.passed = true := by
    apply h.2.1.mpr
    rw [hscore]
    norm_num [pyOrInt, witC8_attempt]
  exact ⟨h.1, (h.2.2.1 hpassed).2⟩

/-- C6 (amended): each interview answer appends one turn; the first
`N − 1` submissions (`N = interview_count`, 0/NULL treated as 5) change
nothing else, while the Nth computes the arithmetic mean of all turn scores
and transitions the attempt to completed when the mean reaches
`interview_passing_score` (0/NULL treated as 5) and otherwise to failed with
`current_stage` pinned at `interview`. -/
theorem interview_answer_turns (a : Attempt) (q ans : String) (ev : EvalResult)
    (rep : Report) :
    (((a.interview_qa.length : Int) + 1 < pyOrInt a.interview_count 5 →
       (interview_answer a q ans ev rep).1 =
         { a with interview_qa :=
             a.interview_qa ++ [({ question := q, answer := ans, score := ev.score } : QA)] }))
  ∧ ((a.interview_qa.length : Int) + 1 ≥ pyOrInt a.interview_count 5 →
       (interview_answer a q ans ev rep).1.interview_score =
         ((a.interview_qa ++ [({ question := q, answer := ans, score := ev.score } : QA)]).map
             QA.score).sum /
           ((a.interview_qa ++ [({ question := q, answer := ans, score := ev.score } : QA)]).length : ℚ)
     ∧ ((interview_answer a q ans ev rep).1.interview_score ≥
          (pyOrInt a.interview_passing_score 5 : ℚ) →
          (interview_answer a q ans ev rep).1.interview_status = "completed"
          ∧ (interview_answer a q ans ev rep).1.current_stage = some "completed"
          ∧ (interview_answer a q ans ev rep).1.overall_status = "completed")
     ∧ (¬((interview_answer a q ans ev rep).1.interview_score ≥
            (pyOrInt a.interview_passing_score 5 : ℚ)) →
          (interview_answer a q ans ev rep).1.interview_status = "failed"
          ∧ (interview_answer a q ans ev rep).1.current_stage = some "interview"
          ∧ (interview_answer a q ans ev rep).1.overall_status = "failed")) := by
  have hl1 : (a.interview_qa ++ [({ question := q, answer := ans, score := ev.score } : QA)]).length
      = a.interview_qa.length + 1 := by simp
  constructor
  · intro hlt
    have hcond : ¬(((a.interview_qa ++
        [({ question := q, answer := ans, score := ev.score } : QA)]).length : Int) ≥
        pyOrInt a.interview_count 5) := by
      rw [hl1]; push_cast; omega
    simp only [interview_answer]
    rw [if_neg hcond]
  · intro hge
    have hcond : ((a.interview_qa ++
        [({ question := q, answer := ans, score := ev.score } : QA)]).length : Int) ≥
        pyOrInt a.interview_count 5 := by
      rw [hl1]; push_cast; omega
    have hne0 : ¬((a.interview_qa ++
        [({ question := q, answer := ans, score := ev.score } : QA)]).length = 0) := by
      simp
    simp only [interview_answer]
    rw [if_pos hcond, if_neg hne0]
    split
    next hpass =>
      exact ⟨rfl, fun _ => ⟨rfl, rfl, rfl⟩, fun hn => absurd hpass hn⟩
    next hfail =>
      exact ⟨rfl, fun hp => absurd hp hfail, fun _ => ⟨rfl, rfl, rfl⟩⟩

/-- C6 witness: the spec scenario — `interview_count = 3`, third submission
with turn scores 6, 7, 8: mean 7 computed, `7 ≥ 5`, attempt completed. -/
theorem interview_answer_turns_witness :
    (interview_answer witC6_attempt "q3" "a3" witC6_eval repX).1.interview_score =
      ((witC6_attempt.interview_qa ++
          [({ question := "q3", answer := "a3", score := witC6_eval.score } : QA)]).map QA.score).sum /
        ((witC6_attempt.interview_qa ++
          [({ question := "q3", answer := "a3", score := witC6_eval.score } : QA)]).length : ℚ)
  ∧ (interview_answer witC6_attempt "q3" "a3" witC6_eval repX).1.interview_score = 7
  ∧ (interview_answer witC6_attempt "q3" "a3" witC6_eval repX).1.interview_status = "completed"
  ∧ (interview_answer witC6_attempt "q3" "a3" witC6_eval repX).1.current_stage = some "completed"
  ∧ (interview_answer witC6_attempt "q3" "a3" witC6_eval repX).1.overall_status = "completed" := by
  have h := (interview_answer_turns witC6_attempt "q3" "a3" witC6_eval repX).2
    (by norm_num [witC6_attempt, pyOrInt])
  have havg : (interview_answer witC6_attempt "q3" "a3" witC6_eval repX).1.interview_score = 7 := by
    rw [h.1]
    norm_num [witC6_attempt, witC6_eval]
  have hpass := h.2.1 (by rw [havg]; norm_num [witC6_attempt, pyOrInt])
  exact ⟨h.1, havg, hpass.1, hpass.2.1, hpass.2.2⟩

end Assessment
